import Mathlib

/-!
Shallow embedding of `src/src/lib.rs` of the `rs-glibc` repository: a thin
safe wrapper over the platform dynamic-loading primitives `dlopen`,
`dlclose`, `dlsym`, `dlerror`.

Modelling choices:
* A raw native pointer (`*mut c_void`, `*mut c_char`) is a `Nat`; `0` is
  the null sentinel (`std::ptr::null_mut()` / `.is_null()` become `= 0`).
* A Rust `&str` or byte string is a `List Nat` of its bytes; the empty
  string `""` is `[]`; an embedded null byte is `0 ∈ bytes`.
* The native layer is an explicit oracle `NativeEnv` giving the value each
  native primitive would return, and every wrapper function also returns
  the list of native calls its body made, in order, so that claims about
  "no native call" / "exactly one native call with these arguments" are
  statements about that trace.
* `CString::new` fails exactly when the input bytes contain a null byte
  (`NulError`); `CStr::to_str` fails exactly when the bytes are not valid
  UTF-8 (`Utf8Error`).  `Box<dyn Error>` in the signatures of `dlopen` and
  `dlsym` can only ever hold a `NulError`, so it is embedded as the
  one-constructor type `StrError`.
-/

namespace RsGlibc

/-- A raw native pointer value; `0` is the null sentinel. -/
abbrev Ptr := Nat

/-- One call out to the native dynamic-loading layer, with the arguments
the wrapper passed.  For the open call the filename is `none` when the
wrapper passed a null pointer and `some bytes` when it passed a (non-null)
C string with those bytes. -/
inductive NativeCall where
  | open_call (filename : Option (List Nat)) (flags : Int)
  | close_call (handle : Ptr)
  | sym_call (handle : Ptr) (symbol : List Nat)
  | error_call
  deriving DecidableEq, Repr

/-- Oracle for the native layer: the value each native primitive returns
when called with the given arguments (`_dlopen`, `_dlclose`, `_dlsym`,
`_dlerror` in the source).  `dlerror_impl` is `none` for a null result and
`some bytes` for a non-null pointer to a C string with those bytes. -/
structure NativeEnv where
  dlopen_impl : Option (List Nat) → Int → Ptr
  dlclose_impl : Ptr → Int
  dlsym_impl : Ptr → List Nat → Ptr
  dlerror_impl : Option (List Nat)

/-- `FileHandle`: wraps the raw pointer returned by `dlopen`; the pointer
field is private to the library.  No `Copy`/`Clone` is implemented in the
source. -/
structure FileHandle where
  _private : Ptr
  deriving DecidableEq, Repr

/-- `FileHandle::invalid()`: a handle wrapping the null pointer.  Its body
is a plain struct literal, so its native-call trace is empty. -/
def FileHandle.invalid : FileHandle × List NativeCall :=
  (⟨0⟩, [])

/-- `FileHandle::is_valid()`: `!self._private.is_null()`.  Pure query; its
body makes no native call, so its trace is empty. -/
def FileHandle.is_valid (self : FileHandle) : Bool × List NativeCall :=
  (decide (self._private ≠ 0), [])

/-- `FileHandle` implements no `Drop`, and its only field is a raw
pointer, so dropping a `FileHandle` runs no code: the native-call trace of
a drop is empty. -/
def FileHandle.drop (_self : FileHandle) : List NativeCall :=
  []

-- flags that can be passed to dlopen
def RTLD_LAZY : Int := 0x00001
def RTLD_NOW : Int := 0x00002
def RTLD_BINDING_MASK : Int := 0x00003
def RTLD_NOLOAD : Int := 0x00004
def RTLD_DEEPBIND : Int := 0x00008
def RTLD_GLOBAL : Int := 0x00100
def RTLD_LOCAL : Int := 0
def RTLD_NODELETE : Int := 0x01000

/-- The only error `dlopen`/`dlsym` ever box: `std::ffi::NulError`, raised
by `CString::new` when the input contains an embedded null byte. -/
inductive StrError where
  | nulError
  deriving DecidableEq, Repr

/-- `CString::new(bytes)`: fails with `NulError` iff the bytes contain a
null byte, otherwise yields the same bytes (to be null-terminated by the
representation, which the embedding leaves implicit). -/
def cstring_new (bytes : List Nat) : Except StrError (List Nat) :=
  if 0 ∈ bytes then .error .nulError else .ok bytes

/-- `dlopen(filename, flags)` from the source: empty filename → native
call with a null filename pointer; otherwise convert via `CString::new`
(returning the conversion error without any native call on failure) and
pass the converted string and the flags to the native primitive, wrapping
whatever it returns. -/
def dlopen (env : NativeEnv) (filename : List Nat) (flags : Int) :
    Except StrError FileHandle × List NativeCall :=
  if filename = [] then
    (.ok ⟨env.dlopen_impl none flags⟩, [.open_call none flags])
  else
    match cstring_new filename with
    | .error e => (.error e, [])
    | .ok cstr_filename =>
        (.ok ⟨env.dlopen_impl (some cstr_filename) flags⟩,
         [.open_call (some cstr_filename) flags])

/-- `dlclose(handle)` from the source: passes the wrapped pointer to the
native close primitive and returns its raw integer status. -/
def dlclose (env : NativeEnv) (handle : FileHandle) : Int × List NativeCall :=
  (env.dlclose_impl handle._private, [.close_call handle._private])

/-- `dlsym(&handle, symbol)` from the source: convert the symbol name via
`CString::new` (returning the conversion error without any native call on
failure), then pass the handle's wrapped pointer and the converted name to
the native lookup primitive and wrap its raw pointer result as `Ok`. -/
def dlsym (env : NativeEnv) (handle : FileHandle) (symbol : List Nat) :
    Except StrError Ptr × List NativeCall :=
  match cstring_new symbol with
  | .error e => (.error e, [])
  | .ok cstr_symbol =>
      (.ok (env.dlsym_impl handle._private cstr_symbol),
       [.sym_call handle._private cstr_symbol])

/-- `std::str::Utf8Error`, raised by `CStr::to_str` on invalid UTF-8. -/
inductive Utf8Error where
  | utf8Error
  deriving DecidableEq, Repr

/-- Is `b` a UTF-8 continuation byte (`0x80 ..= 0xBF`)? -/
def contByte (b : Nat) : Bool :=
  0x80 ≤ b && b ≤ 0xBF

/-- UTF-8 validity of a byte sequence, as checked by `CStr::to_str`
(standard RFC 3629 well-formedness: no overlongs, no surrogates, no code
points above U+10FFFF). -/
def utf8_valid : List Nat → Bool
  | [] => true
  | b :: rest =>
    if b ≤ 0x7F then
      utf8_valid rest
    else if 0xC2 ≤ b && b ≤ 0xDF then
      match rest with
      | b1 :: rest1 => contByte b1 && utf8_valid rest1
      | [] => false
    else if b = 0xE0 then
      match rest with
      | b1 :: b2 :: rest2 =>
          (0xA0 ≤ b1 && b1 ≤ 0xBF) && contByte b2 && utf8_valid rest2
      | _ => false
    else if (0xE1 ≤ b && b ≤ 0xEC) || b = 0xEE || b = 0xEF then
      match rest with
      | b1 :: b2 :: rest2 => contByte b1 && contByte b2 && utf8_valid rest2
      | _ => false
    else if b = 0xED then
      match rest with
      | b1 :: b2 :: rest2 =>
          (0x80 ≤ b1 && b1 ≤ 0x9F) && contByte b2 && utf8_valid rest2
      | _ => false
    else if b = 0xF0 then
      match rest with
      | b1 :: b2 :: b3 :: rest3 =>
          (0x90 ≤ b1 && b1 ≤ 0xBF) && contByte b2 && contByte b3 &&
            utf8_valid rest3
      | _ => false
    else if 0xF1 ≤ b && b ≤ 0xF3 then
      match rest with
      | b1 :: b2 :: b3 :: rest3 =>
          contByte b1 && contByte b2 && contByte b3 && utf8_valid rest3
      | _ => false
    else if b = 0xF4 then
      match rest with
      | b1 :: b2 :: b3 :: rest3 =>
          (0x80 ≤ b1 && b1 ≤ 0x8F) && contByte b2 && contByte b3 &&
            utf8_valid rest3
      | _ => false
    else
      false

/-- `dlerror()` from the source: query the native last-error primitive; a
null result is `Ok(None)`; otherwise the pointed-to C string's bytes are
decoded as UTF-8, yielding `Ok(Some(message))` on success (the message is
the byte string itself, viewed as text) and the decode error on failure. -/
def dlerror (env : NativeEnv) :
    Except Utf8Error (Option (List Nat)) × List NativeCall :=
  match env.dlerror_impl with
  | none => (.ok none, [.error_call])
  | some bytes =>
      if utf8_valid bytes then (.ok (some bytes), [.error_call])
      else (.error .utf8Error, [.error_call])

/-- A concrete native layer used to instantiate universally quantified
theorems: open returns the non-null pointer `4096`, close returns status
`0`, symbol lookup returns `0xdead`, and no error message is pending. -/
def testEnv : NativeEnv :=
  ⟨fun _ _ => 4096, fun _ => 0, fun _ _ => 0xdead, none⟩

/-- A concrete native layer whose open and symbol-lookup primitives return
the null pointer and whose pending error bytes are not valid UTF-8. -/
def nullEnv : NativeEnv :=
  ⟨fun _ _ => 0, fun _ => 1, fun _ _ => 0, some [0xFF]⟩

/-- C1: for a non-empty path, `dlopen` returns the string-conversion error
iff the path contains an embedded null byte, and for any symbol name,
`dlsym` returns the string-conversion error iff the name contains an
embedded null byte; in each error case the native-call trace is empty. -/
theorem conversion_error_iff_embedded_null
    (env : NativeEnv) (path symbol : List Nat) (flags : Int)
    (handle : FileHandle) (hne : path ≠ []) :
    ((dlopen env path flags).1 = .error .nulError ↔ 0 ∈ path) ∧
    (0 ∈ path → (dlopen env path flags).2 = []) ∧
    ((dlsym env handle symbol).1 = .error .nulError ↔ 0 ∈ symbol) ∧
    (0 ∈ symbol → (dlsym env handle symbol).2 = []) := by
  unfold dlopen dlsym cstring_new
  rw [if_neg hne]
  by_cases hp : 0 ∈ path <;> by_cases hs : 0 ∈ symbol <;> simp [hp, hs]

/-- Witness for C1 at the path `"a\0"`, the symbol `"\0"`, flags `2`, a
handle wrapping `1`, and the concrete environment `testEnv`. -/
theorem conversion_error_iff_embedded_null_witness :
    (([97, 0] : List Nat) ≠ []) ∧
    (((dlopen testEnv [97, 0] 2).1 = .error .nulError ↔
        0 ∈ ([97, 0] : List Nat)) ∧
     (0 ∈ ([97, 0] : List Nat) → (dlopen testEnv [97, 0] 2).2 = []) ∧
     ((dlsym testEnv ⟨1⟩ [0]).1 = .error .nulError ↔
        0 ∈ ([0] : List Nat)) ∧
     (0 ∈ ([0] : List Nat) → (dlsym testEnv ⟨1⟩ [0]).2 = [])) :=
  ⟨by decide,
   conversion_error_iff_embedded_null testEnv [97, 0] [0] 2 ⟨1⟩ (by decide)⟩

/-- C3: for a path without an embedded null byte, `dlopen` returns `Ok` of
a handle wrapping exactly what the native open primitive returned — in
particular, when the native result is the null sentinel, the result is
still `Ok` of a handle with `is_valid() == false`, never an error. -/
theorem dlopen_wraps_native_result_as_ok
    (env : NativeEnv) (path : List Nat) (flags : Int) (hnn : 0 ∉ path) :
    (dlopen env path flags).1 =
      .ok ⟨env.dlopen_impl (if path = [] then none else some path) flags⟩ ∧
    (env.dlopen_impl (if path = [] then none else some path) flags = 0 →
      ∃ fh, (dlopen env path flags).1 = .ok fh ∧ (fh.is_valid).1 = false) := by
  by_cases hp : path = [] <;>
    simp [dlopen, cstring_new, hp, hnn, FileHandle.is_valid]

/-- Witness for C3 at the path `"a"`, flags `1`, and the concrete
environment `nullEnv`, whose open primitive returns the null sentinel. -/
theorem dlopen_wraps_native_result_as_ok_witness :
    (0 ∉ ([97] : List Nat)) ∧
    ((dlopen nullEnv [97] 1).1 =
       .ok ⟨nullEnv.dlopen_impl
         (if ([97] : List Nat) = [] then none else some [97]) 1⟩ ∧
     (nullEnv.dlopen_impl
         (if ([97] : List Nat) = [] then none else some [97]) 1 = 0 →
       ∃ fh, (dlopen nullEnv [97] 1).1 = .ok fh ∧ (fh.is_valid).1 = false)) :=
  ⟨by decide, dlopen_wraps_native_result_as_ok nullEnv [97] 1 (by decide)⟩

/-- C4: `dlopen` on the empty path makes exactly one native open call,
with a null filename pointer (not an empty non-null string) and the flags
unchanged, and returns the wrapped native result as `Ok`. -/
theorem dlopen_empty_path_null_filename (env : NativeEnv) (flags : Int) :
    dlopen env [] flags =
      (.ok ⟨env.dlopen_impl none flags⟩,
       [NativeCall.open_call none flags]) := by
  simp [dlopen]

/-- C5: `dlclose` makes exactly one native close call with the handle's
wrapped value — whatever it is, null included — and returns the native
primitive's raw integer status unchanged. -/
theorem dlclose_passes_status_through (env : NativeEnv) (handle : FileHandle) :
    dlclose env handle =
      (env.dlclose_impl handle._private,
       [NativeCall.close_call handle._private]) := rfl

/-- C6: for a symbol name without an embedded null byte, `dlsym` performs
no validity check on the handle: it makes exactly one native lookup call
with the handle's wrapped value (even when that value is null) and returns
the raw native pointer result as `Ok`, including when it is null. -/
theorem dlsym_no_handle_check
    (env : NativeEnv) (handle : FileHandle) (symbol : List Nat)
    (hnn : 0 ∉ symbol) :
    dlsym env handle symbol =
      (.ok (env.dlsym_impl handle._private symbol),
       [NativeCall.sym_call handle._private symbol]) := by
  simp [dlsym, cstring_new, hnn]

/-- Witness for C6 at the invalid handle (wrapped value `0`), the symbol
`"a"`, and the concrete environment `nullEnv`, whose lookup primitive
returns the null pointer. -/
theorem dlsym_no_handle_check_witness :
    (0 ∉ ([97] : List Nat)) ∧
    dlsym nullEnv ⟨0⟩ [97] =
      (.ok (nullEnv.dlsym_impl 0 [97]), [NativeCall.sym_call 0 [97]]) :=
  ⟨by decide, dlsym_no_handle_check nullEnv ⟨0⟩ [97] (by decide)⟩

/-- C7: `dlerror` returns `Ok(None)` iff the native last-error primitive
returns null; when the primitive returns a byte string, the result is
`Ok(Some(message))` with the decoded bytes when they are valid UTF-8 and
the decode error when they are not. -/
theorem dlerror_decode_cases (env : NativeEnv) :
    ((dlerror env).1 = .ok none ↔ env.dlerror_impl = none) ∧
    (∀ bytes, env.dlerror_impl = some bytes →
      (utf8_valid bytes = true → (dlerror env).1 = .ok (some bytes)) ∧
      (utf8_valid bytes = false → (dlerror env).1 = .error .utf8Error)) := by
  cases henv : env.dlerror_impl with
  | none => simp [dlerror, henv]
  | some bytes =>
      refine ⟨?_, ?_⟩
      · by_cases hv : utf8_valid bytes <;> simp [dlerror, henv, hv]
      · intro b hb
        have hbb : bytes = b := Option.some.inj hb
        subst hbb
        constructor <;> intro hv <;> simp [dlerror, henv, hv]

/-- C8: `FileHandle::invalid()` is a pure value construction: it wraps the
null sentinel, reports `is_valid() == false`, and makes no native call. -/
theorem invalid_is_pure_null_handle :
    FileHandle.invalid = (⟨0⟩, []) ∧
    ((FileHandle.invalid.1).is_valid).1 = false ∧
    FileHandle.invalid.2 = [] :=
  ⟨rfl, rfl, rfl⟩

/-- C9: `is_valid()` returns true iff the wrapped native value is
non-null, and it is pure: it makes no native call. -/
theorem is_valid_iff_nonnull (handle : FileHandle) :
    ((handle.is_valid).1 = true ↔ handle._private ≠ 0) ∧
    (handle.is_valid).2 = [] :=
  ⟨by simp [FileHandle.is_valid], rfl⟩

/-- C10: dropping a `FileHandle` makes no native call, and of all the
library's operations only `dlclose` ever emits a native close call — which
it does exactly once, on the handle's wrapped value. -/
theorem only_dlclose_calls_native_close :
    (∀ handle : FileHandle, FileHandle.drop handle = []) ∧
    (∀ (env : NativeEnv) (path : List Nat) (flags : Int) (p : Ptr),
       NativeCall.close_call p ∉ (dlopen env path flags).2) ∧
    (∀ (env : NativeEnv) (handle : FileHandle) (symbol : List Nat) (p : Ptr),
       NativeCall.close_call p ∉ (dlsym env handle symbol).2) ∧
    (∀ (env : NativeEnv) (p : Ptr),
       NativeCall.close_call p ∉ (dlerror env).2) ∧
    (∀ p : Ptr, NativeCall.close_call p ∉ FileHandle.invalid.2) ∧
    (∀ (handle : FileHandle) (p : Ptr),
       NativeCall.close_call p ∉ (FileHandle.is_valid handle).2) ∧
    (∀ (env : NativeEnv) (handle : FileHandle),
       (dlclose env handle).2 = [NativeCall.close_call handle._private]) := by
  refine ⟨fun _ => rfl, ?_, ?_, ?_, ?_, ?_, fun _ _ => rfl⟩
  · intro env path flags p
    by_cases hp : path = [] <;> by_cases h0 : 0 ∈ path <;>
      simp [dlopen, cstring_new, hp, h0]
  · intro env handle symbol p
    by_cases h0 : 0 ∈ symbol <;> simp [dlsym, cstring_new, h0]
  · intro env p
    cases henv : env.dlerror_impl with
    | none => simp [dlerror, henv]
    | some bytes => by_cases hv : utf8_valid bytes <;> simp [dlerror, henv, hv]
  · intro p
    simp [FileHandle.invalid]
  · intro handle p
    simp [FileHandle.is_valid]

end RsGlibc
